import Mathlib

/-!
Verification development for the Delta flight-menu integration layer
(`src/client/delta_client.py`, `src/client/oauth_manager.py`,
`src/models/requests.py`).  The Python functions are shallowly embedded as
total Lean functions; network I/O is represented by explicit outcome
parameters (`HttpOutcome`, `TokenEndpointOutcome`), and the upstream JSON
payloads by record types holding exactly the fields that the parsing code
reads (an optional field is `some v` when the key is present with a
non-null value; the parser's `.get(key, default)` calls become
`Option.getD`).
-/

namespace DeltaMenu

/-- Upstream JSON shape: one element of `menuItemDietaryAsgmts`, of which
`_parse_menu_item` reads only `menuItemDietaryDesc`. -/
structure DietaryAsgmtData where
  menuItemDietaryDesc : Option String
deriving Repr, DecidableEq

/-- Upstream JSON shape: one element of `menuItems`, with the fields read
by `DeltaMenuClient._parse_menu_item`. -/
structure ItemData where
  menuItemDesc : Option String
  menuItemAdditionalDesc : Option String
  menuItemTypeName : Option String
  menuItemDietaryAsgmts : Option (List DietaryAsgmtData)
deriving Repr, DecidableEq

/-- Upstream JSON shape: one element of `menus`, of which
`_parse_cabin_menu` reads only `menuItems`. -/
structure MenuData where
  menuItems : Option (List ItemData)
deriving Repr, DecidableEq

/-- Upstream JSON shape: one element of `menuServices`, with the fields
read by `DeltaMenuClient._parse_cabin_menu`. -/
structure MenuServiceData where
  cabinTypeCode : Option String
  cabinTypeDesc : Option String
  menus : Option (List MenuData)
  primaryMenuServiceTypeDesc : Option String
  cabinWelcomeMessage : Option String
deriving Repr, DecidableEq

/-- Upstream JSON shape: one element of `flightMenus`, with the fields
read by `DeltaMenuClient._parse_api_response`. -/
structure FlightMenuData where
  flightArrivalAirportCode : Option String
  menuServices : Option (List MenuServiceData)
deriving Repr, DecidableEq

/-- Upstream JSON shape of the menu-by-flight payload.  The guard
`not data or not data.get('flightMenus')` in `_parse_api_response` is
satisfied exactly when `flightMenus` is `none` (key absent, e.g. the empty
object, whose truthiness test also fails) or `some []` (present but an
empty, hence falsy, list).  The source tests the error field by key
presence (`'error' in data`) and then copies `data['error']` even when it
is null, so `error` is doubly optional: the outer layer is key presence,
the inner layer distinguishes a null value (`some none`) from a string
(`some (some s)`). -/
structure ApiPayload where
  flightMenus : Option (List FlightMenuData)
  error : Option (Option String)
deriving Repr, DecidableEq

/-- `MenuQueryRequest` from `src/models/requests.py`: `departure_date`,
`flight_number` (positive), `departure_airport`, `operating_carrier`
(default `DL`), `lang_cd` (default `en-US`).  The model defines no
cabin-code field. -/
structure MenuQueryRequest where
  departure_date : String
  flight_number : Nat
  departure_airport : String
  operating_carrier : String := "DL"
  lang_cd : String := "en-US"
deriving Repr, DecidableEq

/-- The menu-item value constructed by `DeltaMenuClient._parse_menu_item`
(`name`, `description`, `category`, `dietary_info`, `allergens`,
`image_url`, matching the keyword arguments of the call at
`delta_client.py:191`). -/
structure MenuItemResult where
  name : String
  description : Option String
  category : String
  dietary_info : List String
  allergens : List String
  image_url : Option String
deriving Repr, DecidableEq

/-- The cabin-menu value constructed by `DeltaMenuClient._parse_cabin_menu`.
Modelled from the spec: the `CabinMenu` model imported by
`delta_client.py` is absent from `src/models/menu.py`; its fields are
taken from the constructor call at `delta_client.py:171`
(`cabin_code`, `cabin_name`, `menu_items`, `service_time`,
`special_notes`), matching the spec's `MenuService` (cabin code and
description, notes bundle, menu contents). -/
structure CabinMenu where
  cabin_code : String
  cabin_name : String
  menu_items : List MenuItemResult
  service_time : Option String
  special_notes : Option String
deriving Repr, DecidableEq

/-- The flight-menu result value constructed by
`DeltaMenuClient.get_menu_by_flight` / `_parse_api_response`; fields are
the keyword arguments the client passes to `FlightMenuResponse`
(`carrier_code`, `flight_number`, `departure_date`, `departure_airport`,
`arrival_airport`, `cabins`, `success`, `error_message`,
`api_response_time_ms`). -/
structure FlightMenuResult where
  carrier_code : String
  flight_number : Nat
  departure_date : String
  departure_airport : String
  arrival_airport : Option String := none
  cabins : List CabinMenu := []
  success : Bool
  error_message : Option String := none
  api_response_time_ms : Option Nat := none
deriving Repr, DecidableEq

/-- Embedding of `DeltaMenuClient._parse_menu_item`: dietary descriptions
are kept only when present and truthy (non-empty); `menuItemDesc`
defaults to `Unknown Item`, `menuItemTypeName` to `General`; `allergens`
is always empty and `image_url` always null.  The Python wrapper returns
`None` only on an exception, which the field accesses cannot raise, so
the embedded function always returns `some`. -/
def parse_menu_item (item : ItemData) : Option MenuItemResult :=
  let dietary_info :=
    (item.menuItemDietaryAsgmts.getD []).filterMap fun d =>
      match d.menuItemDietaryDesc with
      | some s => if s = "" then none else some s
      | none => none
  some
    { name := item.menuItemDesc.getD "Unknown Item"
      description := item.menuItemAdditionalDesc
      category := item.menuItemTypeName.getD "General"
      dietary_info := dietary_info
      allergens := []
      image_url := none }

/-- Embedding of `DeltaMenuClient._parse_cabin_menu`: flatten the parsed
items of all menus; when no item parses (`if not menu_items: return
None`) the cabin is dropped, otherwise a `CabinMenu` is built with
`cabinTypeDesc` defaulting to the cabin code. -/
def parse_cabin_menu (ms : MenuServiceData) : Option CabinMenu :=
  let cabin_code := ms.cabinTypeCode.getD "Unknown"
  let cabin_name := ms.cabinTypeDesc.getD cabin_code
  let menu_items :=
    ((ms.menus.getD []).map fun m =>
      (m.menuItems.getD []).filterMap parse_menu_item).flatten
  if menu_items = [] then
    none
  else
    some
      { cabin_code := cabin_code
        cabin_name := cabin_name
        menu_items := menu_items
        service_time := ms.primaryMenuServiceTypeDesc
        special_notes := ms.cabinWelcomeMessage }

/-- Embedding of `DeltaMenuClient._parse_api_response`.  When the payload
has no (or an empty) `flightMenus` collection, a `success=False` value is
returned whose message is `data['error']` whenever the error key is
present — a null value included, which makes the returned message null —
else the generic `Empty or invalid response from API`.  Otherwise the
first entry is mapped: cabins are the `menuServices` entries that
`parse_cabin_menu` keeps, and `success=True`. -/
def parse_api_response (data : ApiPayload) (request : MenuQueryRequest)
    (response_time_ms : Nat) : FlightMenuResult :=
  match data.flightMenus with
  | some (flight_menu_data :: _) =>
      { carrier_code := request.operating_carrier
        flight_number := request.flight_number
        departure_date := request.departure_date
        departure_airport := request.departure_airport
        arrival_airport := flight_menu_data.flightArrivalAirportCode
        cabins := (flight_menu_data.menuServices.getD []).filterMap parse_cabin_menu
        success := true
        error_message := none
        api_response_time_ms := some response_time_ms }
  | _ =>
      { carrier_code := request.operating_carrier
        flight_number := request.flight_number
        departure_date := request.departure_date
        departure_airport := request.departure_airport
        arrival_airport := none
        cabins := []
        success := false
        error_message :=
          match data.error with
          | some v => v
          | none => some "Empty or invalid response from API"
        api_response_time_ms := some response_time_ms }

/-- Outcome of the menu-by-flight HTTP GET, the only I/O of
`get_menu_by_flight`: a response with a status code, parsed JSON payload
and raw body; a timeout (`httpx.TimeoutException`); or any other
exception with its message. -/
inductive HttpOutcome where
  | ok (status : Nat) (payload : ApiPayload) (body : String)
  | timeout
  | exn (msg : String)
deriving Repr, DecidableEq

/-- Embedding of `DeltaMenuClient.get_menu_by_flight` after the request
parameters are built: on status 200 the payload goes to
`parse_api_response`; on any other status a `success=False` value carries
the synthesized message `API returned status code N`; a timeout yields
the `Request timed out` value with `api_response_time_ms=30000`; any
other exception yields its message with no response time. -/
def get_menu_by_flight (request : MenuQueryRequest) (out : HttpOutcome)
    (response_time_ms : Nat) : FlightMenuResult :=
  match out with
  | .ok status payload _body =>
      if status = 200 then
        parse_api_response payload request response_time_ms
      else
        { carrier_code := request.operating_carrier
          flight_number := request.flight_number
          departure_date := request.departure_date
          departure_airport := request.departure_airport
          success := false
          error_message := some ("API returned status code " ++ toString status)
          api_response_time_ms := some response_time_ms }
  | .timeout =>
      { carrier_code := request.operating_carrier
        flight_number := request.flight_number
        departure_date := request.departure_date
        departure_airport := request.departure_airport
        success := false
        error_message := some "Request timed out"
        api_response_time_ms := some 30000 }
  | .exn msg =>
      { carrier_code := request.operating_carrier
        flight_number := request.flight_number
        departure_date := request.departure_date
        departure_airport := request.departure_airport
        success := false
        error_message := some msg }

/-- `OAuthToken` from `src/client/oauth_manager.py`: access token, token
type, lifetime, and absolute expiry instant.  Times are modelled as
integers (seconds). -/
structure OAuthToken where
  access_token : String
  token_type : String
  expires_in : Int
  expires_at : Int
deriving Repr, DecidableEq

/-- Outcome of the OAuth token-endpoint POST, the only I/O of
`DeltaOAuthManager._refresh_token`: a 200 response with the parsed token
fields, a non-200 response with status and body, or a timeout. -/
inductive TokenEndpointOutcome where
  | ok (access_token : String) (token_type : String) (expires_in : Int)
  | httpError (status : Nat) (body : String)
  | timeout
deriving Repr, DecidableEq

/-- Embedding of `DeltaOAuthManager._refresh_token`: on 200 a fresh token
with `expires_at = now + expires_in`; on a non-200 status the raised
message is wrapped by the outer handler into
`Failed to get OAuth token: OAuth token request failed: status - body`;
on timeout the handler re-raises `OAuth token request timed out`
(raised from the timeout handler itself, hence not re-wrapped). -/
def refresh_token (now : Int) (out : TokenEndpointOutcome) :
    Except String OAuthToken :=
  match out with
  | .ok access_token token_type expires_in =>
      .ok
        { access_token := access_token
          token_type := token_type
          expires_in := expires_in
          expires_at := now + expires_in }
  | .httpError status body =>
      .error ("Failed to get OAuth token: OAuth token request failed: "
        ++ toString status ++ " - " ++ body)
  | .timeout => .error "OAuth token request timed out"

/-- Embedding of `DeltaOAuthManager.get_access_token`.  The cached token
is `st`; the result is the returned token (or the propagated error
message), the new cached token, and the number of upstream credential
exchanges performed (0 or 1).  The cache hit test is
`self._token and self._token.expires_at > time.time() + 60`. -/
def get_access_token (st : Option OAuthToken) (now : Int)
    (env : TokenEndpointOutcome) :
    Except String String × Option OAuthToken × Nat :=
  match st with
  | some t =>
      if now + 60 < t.expires_at then
        (.ok t.access_token, some t, 0)
      else
        match refresh_token now env with
        | .ok t' => (.ok t'.access_token, some t', 1)
        | .error e => (.error e, st, 1)
  | none =>
      match refresh_token now env with
      | .ok t' => (.ok t'.access_token, some t', 1)
      | .error e => (.error e, st, 1)

section Availability

/-- Upstream JSON shape: one element of the availability response's
`cabins` list, with the fields read by `_parse_availability_response`. -/
structure AvailCabinData where
  cabinTypeCode : Option String
  cabinTypeDesc : Option String
  preSelectMenuAvailable : Option Bool
  digitalMenuAvailable : Option Bool
  cabinPreselectWindowStartUtcTs : Option String
  cabinPreselectWindowEndUtcTs : Option String
deriving Repr, DecidableEq

/-- Upstream JSON shape: one element of the availability response's
`flightLegs` list. -/
structure AvailFlightData where
  operatingCarrierCode : Option String
  flightNum : Option Nat
  flightDepartureAirportCode : Option String
  departureLocalDate : Option String
  status : Option String
  cabins : Option (List AvailCabinData)
deriving Repr, DecidableEq

/-- Upstream JSON shape of the availability payload.  The guard in
`_parse_availability_response` is a key-presence test
(`'flightLegs' not in data`), so `some []` (key present, empty list) is a
success here, unlike the menu parser's truthiness test. -/
structure AvailPayload where
  flightLegs : Option (List AvailFlightData)
deriving Repr, DecidableEq

/-- `CabinAvailability` from `src/models/menu.py`, as populated by
`_parse_availability_response` (absent upstream fields become `''`,
`False`, or null). -/
structure CabinAvailability where
  cabin_type_code : String
  cabin_type_desc : String
  pre_select_menu_available : Bool
  digital_menu_available : Bool
  cabin_preselect_window_start_utc_ts : Option String
  cabin_preselect_window_end_utc_ts : Option String
deriving Repr, DecidableEq

/-- `FlightMenuAvailability` from `src/models/menu.py`, as populated by
`_parse_availability_response`. -/
structure FlightMenuAvailability where
  operating_carrier_code : String
  flight_num : Nat
  flight_departure_airport_code : String
  departure_local_date : String
  status : String
  cabins : List CabinAvailability
deriving Repr, DecidableEq

/-- `MenuAvailabilityResponse` from `src/models/menu.py`. -/
structure MenuAvailabilityResult where
  flight_legs : List FlightMenuAvailability
  success : Bool
  error_message : Option String := none
  api_response_time_ms : Option Nat := none
deriving Repr, DecidableEq

/-- `FlightLeg` from `src/models/menu.py`: one requested leg of the
availability POST body. -/
structure FlightLeg where
  operating_carrier_code : String
  flight_num : Nat
  flight_departure_airport_code : String
  departure_local_date : String
deriving Repr, DecidableEq

/-- Embedding of `DeltaMenuClient._parse_availability_response`: booleans
and nullable timestamps pass through unchanged, absent scalars default. -/
def parse_availability_response (data : AvailPayload)
    (response_time_ms : Nat) : MenuAvailabilityResult :=
  match data.flightLegs with
  | none =>
      { flight_legs := []
        success := false
        error_message := some "Invalid availability response format"
        api_response_time_ms := some response_time_ms }
  | some legs =>
      { flight_legs := legs.map fun flight_data =>
          { operating_carrier_code := flight_data.operatingCarrierCode.getD ""
            flight_num := flight_data.flightNum.getD 0
            flight_departure_airport_code :=
              flight_data.flightDepartureAirportCode.getD ""
            departure_local_date := flight_data.departureLocalDate.getD ""
            status := flight_data.status.getD ""
            cabins := (flight_data.cabins.getD []).map fun cabin_data =>
              { cabin_type_code := cabin_data.cabinTypeCode.getD ""
                cabin_type_desc := cabin_data.cabinTypeDesc.getD ""
                pre_select_menu_available :=
                  cabin_data.preSelectMenuAvailable.getD false
                digital_menu_available :=
                  cabin_data.digitalMenuAvailable.getD false
                cabin_preselect_window_start_utc_ts :=
                  cabin_data.cabinPreselectWindowStartUtcTs
                cabin_preselect_window_end_utc_ts :=
                  cabin_data.cabinPreselectWindowEndUtcTs } }
        success := true
        error_message := none
        api_response_time_ms := some response_time_ms }

/-- Outcome of the availability HTTP POST. -/
inductive AvailHttpOutcome where
  | ok (status : Nat) (payload : AvailPayload)
  | timeout
  | exn (msg : String)
deriving Repr, DecidableEq

/-- Embedding of `DeltaMenuClient.check_menu_availability`.  `token_res`
is the outcome of `self.oauth_manager.get_access_token()`, which is
awaited before the POST; when it raises, the generic handler returns a
failure value carrying `str(e)` and the POST is never issued.  The
returned flag records whether the availability POST was performed. -/
def check_menu_availability (_flight_legs : List FlightLeg)
    (token_res : Except String String) (post : AvailHttpOutcome)
    (response_time_ms : Nat) : MenuAvailabilityResult × Bool :=
  match token_res with
  | .error e =>
      ({ flight_legs := []
         success := false
         error_message := some e
         api_response_time_ms := none }, false)
  | .ok _access_token =>
      match post with
      | .ok status payload =>
          if status = 200 then
            (parse_availability_response payload response_time_ms, true)
          else
            ({ flight_legs := []
               success := false
               error_message :=
                 some ("Availability API returned status code " ++ toString status)
               api_response_time_ms := some response_time_ms }, true)
      | .timeout =>
          ({ flight_legs := []
             success := false
             error_message := some "Availability request timed out"
             api_response_time_ms := some 30000 }, true)
      | .exn msg =>
          ({ flight_legs := []
             success := false
             error_message := some msg
             api_response_time_ms := none }, true)

end Availability

section Concurrency

/-!
Interleaving model of concurrent `get_access_token` calls.  Each call
runs the body of `DeltaOAuthManager.get_access_token` with one suspension
point: the `await self._client.post(...)` inside `_refresh_token`.  The
cache check and the decision to refresh happen atomically before the
suspension; the receipt of the token response, the write of
`self._token`, and the read returned to the caller happen atomically
after it.  A schedule is a list of task indices; at each schedule entry
the named task performs its next atomic segment against the shared
state.  Each completed POST counts as one upstream credential exchange.
-/

deriving instance DecidableEq for Except

/-- Per-task progress: not yet started, suspended on the in-flight token
POST, or finished with the call's result. -/
inductive TaskPhase where
  | start
  | awaitingPost
  | done (result : Except String String)
deriving Repr, DecidableEq

/-- Shared state of the manager: the cached token and the number of
upstream credential exchanges performed so far. -/
structure SharedState where
  token : Option OAuthToken
  exchanges : Nat
deriving Repr, DecidableEq

/-- One atomic segment of one `get_access_token` call.  From `start`, a
valid cached token finishes the call with no exchange; otherwise the
task issues its POST and suspends.  From `awaitingPost`, the POST
completes (one exchange): on 200 the task overwrites the cached token
and returns its access token, on failure the error propagates and the
cache is left unchanged. -/
def step_task (now : Int) (env : TokenEndpointOutcome) (s : SharedState)
    (ph : TaskPhase) : SharedState × TaskPhase :=
  match ph with
  | .start =>
      match s.token with
      | some t =>
          if now + 60 < t.expires_at then
            (s, .done (.ok t.access_token))
          else
            (s, .awaitingPost)
      | none => (s, .awaitingPost)
  | .awaitingPost =>
      match refresh_token now env with
      | .ok t' =>
          ({ token := some t', exchanges := s.exchanges + 1 },
           .done (.ok t'.access_token))
      | .error e =>
          ({ s with exchanges := s.exchanges + 1 }, .done (.error e))
  | .done r => (s, .done r)

/-- Run a schedule over the tasks: each entry names the task that
performs its next atomic segment (out-of-range entries are skipped). -/
def run_schedule (now : Int) (env : TokenEndpointOutcome) :
    List Nat → SharedState × List TaskPhase → SharedState × List TaskPhase
  | [], st => st
  | i :: rest, (s, tasks) =>
      match tasks[i]? with
      | none => run_schedule now env rest (s, tasks)
      | some ph =>
          let (s', ph') := step_task now env s ph
          run_schedule now env rest (s', tasks.set i ph')

/-- Tasks that are not yet finished. -/
def TaskPhase.pending : TaskPhase → Bool
  | .done _ => false
  | _ => true

/-- Number of unfinished tasks in a task list. -/
def pending_count : List TaskPhase → Nat
  | [] => 0
  | ph :: rest => (if ph.pending then 1 else 0) + pending_count rest

end Concurrency

section Validation

/-- Modelled from the spec: the request-validation component
(`validate(query) -> ValidationResult`, spec §4.2) whose result shape is
`FlightRequestValidation` in `src/models/requests.py` but whose
implementation is absent from `src/`.  The query carries the departure
date as a day offset; `today` is the injected clock. -/
structure MenuQuery where
  departure_date : Int
  flight_number : Nat
  departure_airport : String
  operating_carrier : String
deriving Repr, DecidableEq

/-- `FlightRequestValidation` from `src/models/requests.py`: validity
flag plus ordered issue and recommendation lists. -/
structure ValidationResult where
  is_valid : Bool
  issues : List String
  recommendations : List String
deriving Repr, DecidableEq

/-- Modelled from the spec: the five independent validation rules of
§4.2, each contributing an issue and a recommendation when violated
(date strictly before today; date more than 365 days out; flight number
above 9999; airport code not exactly 3 alphabetic characters; carrier
code not exactly 2 alphabetic characters). -/
def validation_checks (query : MenuQuery) (today : Int) :
    List (Bool × String × String) :=
  [ (query.departure_date < today,
     "Departure date is in the past",
     "Choose a departure date that is today or later"),
    (query.departure_date > today + 365,
     "Departure date is more than 365 days in the future",
     "Choose a departure date within the next year"),
    (query.flight_number > 9999,
     "Flight number must be at most 9999",
     "Check the flight number"),
    (!(query.departure_airport.length = 3
        && query.departure_airport.toList.all Char.isAlpha),
     "Departure airport code must be exactly 3 alphabetic characters",
     "Use a 3-letter airport code"),
    (!(query.operating_carrier.length = 2
        && query.operating_carrier.toList.all Char.isAlpha),
     "Operating carrier code must be exactly 2 alphabetic characters",
     "Use a 2-letter carrier code") ]

/-- Modelled from the spec: `validate(query)` evaluates every rule (no
short-circuit), collects the issues and recommendations of the violated
ones in order, and sets `is_valid` exactly when no issue was appended.
Pure and total: it always returns a `ValidationResult`. -/
def validate (query : MenuQuery) (today : Int) : ValidationResult :=
  let fired := (validation_checks query today).filter (·.1)
  { is_valid := (fired.map (·.2.1)).isEmpty
    issues := fired.map (·.2.1)
    recommendations := fired.map (·.2.2) }

end Validation

/-- A concrete upstream menu item used in witnesses. -/
def sampleItem : ItemData :=
  { menuItemDesc := some "Sample item"
    menuItemAdditionalDesc := none
    menuItemTypeName := none
    menuItemDietaryAsgmts := none }

/-- A concrete upstream menu service with one menu of one item. -/
def sampleService (code : String) : MenuServiceData :=
  { cabinTypeCode := some code
    cabinTypeDesc := none
    menus := some [{ menuItems := some [sampleItem] }]
    primaryMenuServiceTypeDesc := none
    cabinWelcomeMessage := none }

/-- A concrete payload whose single flight-menu entry has menu services
for the cabins `C`, `F` and `Y`, in that order. -/
def cfyPayload : ApiPayload :=
  { flightMenus := some
      [{ flightArrivalAirportCode := none
         menuServices := some [sampleService "C", sampleService "F", sampleService "Y"] }]
    error := none }

/-- A concrete query (the spec's end-to-end scenario). -/
def sampleRequest : MenuQueryRequest :=
  { departure_date := "2025-09-30"
    flight_number := 1110
    departure_airport := "ATL"
    operating_carrier := "DL"
    lang_cd := "en-US" }

/-- A kept cabin always has a non-empty item list: `_parse_cabin_menu`
returns `None` exactly when no menu item parsed. -/
lemma parse_cabin_menu_some_items (ms : MenuServiceData) (c : CabinMenu)
    (h : parse_cabin_menu ms = some c) : c.menu_items ≠ [] := by
  by_cases hnil :
      (((ms.menus.getD []).map fun m =>
        (m.menuItems.getD []).filterMap parse_menu_item).flatten) = []
  · simp [parse_cabin_menu, hnil] at h
  · simp [parse_cabin_menu, hnil] at h
    intro hc
    apply hnil
    rw [← h] at hc
    exact hc

end DeltaMenu

open DeltaMenu

/-- C3: normalizing a payload with exactly one flight-menu entry whose
`menuServices` list is empty yields `success=true`, an empty cabin list
and no error message — never a failure. -/
theorem parse_one_flight_no_cabins (request : MenuQueryRequest)
    (response_time_ms : Nat) (arrival : Option String) :
    (parse_api_response
        { flightMenus := some [{ flightArrivalAirportCode := arrival, menuServices := some [] }]
          error := none } request response_time_ms).success = true
    ∧ (parse_api_response
        { flightMenus := some [{ flightArrivalAirportCode := arrival, menuServices := some [] }]
          error := none } request response_time_ms).cabins = []
    ∧ (parse_api_response
        { flightMenus := some [{ flightArrivalAirportCode := arrival, menuServices := some [] }]
          error := none } request response_time_ms).error_message = none := by
  refine ⟨rfl, ?_, rfl⟩
  simp [parse_api_response]

/-- C5 counterexample: the source selects the error message by key
presence, so the payload whose error key is present but null — and which
lacks `flightMenus`, putting it in the claim's scope — normalizes to
`success=false` with a null `error_message`, against the claim's
non-null guarantee. -/
theorem null_error_field_null_message :
    (parse_api_response { flightMenus := none, error := some none } sampleRequest 3).success = false
    ∧ (parse_api_response { flightMenus := none, error := some none } sampleRequest 3).error_message
        = none :=
  ⟨rfl, rfl⟩

/-- C5 amended: a payload that is empty or lacks the `flightMenus`
collection normalizes, always as a returned value (the embedded
normalizer is total), to `success=false` whose message is copied
verbatim from the embedded error field whenever that key is present —
including a null value, which yields a null message — and is the generic
non-null `Empty or invalid response from API` when the key is absent. -/
theorem parse_empty_payload_message (data : ApiPayload)
    (request : MenuQueryRequest) (response_time_ms : Nat)
    (h : data.flightMenus = none ∨ data.flightMenus = some []) :
    (parse_api_response data request response_time_ms).success = false
    ∧ (parse_api_response data request response_time_ms).error_message
        = (match data.error with
           | some v => v
           | none => some "Empty or invalid response from API")
    ∧ (data.error = none →
        (parse_api_response data request response_time_ms).error_message
          = some "Empty or invalid response from API") := by
  rcases h with h | h <;>
    exact ⟨by simp [parse_api_response, h], by simp [parse_api_response, h],
           fun he => by simp [parse_api_response, h, he]⟩

/-- Witness for the amended C5 at the empty object payload. -/
theorem parse_empty_payload_message_witness :
    (parse_api_response { flightMenus := none, error := none } sampleRequest 7).success = false
    ∧ (parse_api_response { flightMenus := none, error := none } sampleRequest 7).error_message
        = (match (none : Option (Option String)) with
           | some v => v
           | none => some "Empty or invalid response from API")
    ∧ ((none : Option (Option String)) = none →
        (parse_api_response { flightMenus := none, error := none } sampleRequest 7).error_message
          = some "Empty or invalid response from API") :=
  parse_empty_payload_message { flightMenus := none, error := none } sampleRequest 7 (Or.inl rfl)

/-- C10: every cabin entry of a normalized result has a non-empty menu
item list — a cabin whose menus yield no parseable item is dropped, not
included empty. -/
theorem cabins_have_items (data : ApiPayload) (request : MenuQueryRequest)
    (response_time_ms : Nat) (c : CabinMenu)
    (hc : c ∈ (parse_api_response data request response_time_ms).cabins) :
    c.menu_items ≠ [] := by
  rcases hfm : data.flightMenus with _ | ⟨_ | ⟨fm, rest⟩⟩
  · simp [parse_api_response, hfm] at hc
  · simp [parse_api_response, hfm] at hc
  · simp only [parse_api_response, hfm, List.mem_filterMap] at hc
    obtain ⟨ms, _, hms⟩ := hc
    exact parse_cabin_menu_some_items ms c hms

/-- Witness for C10 on a concrete payload with one single-item cabin. -/
theorem cabins_have_items_witness :
    ({ cabin_code := "C", cabin_name := "C"
       menu_items := [{ name := "Sample item", description := none, category := "General",
                        dietary_info := [], allergens := [], image_url := none }]
       service_time := none, special_notes := none } : CabinMenu).menu_items ≠ [] :=
  cabins_have_items cfyPayload sampleRequest 0
    { cabin_code := "C", cabin_name := "C"
      menu_items := [{ name := "Sample item", description := none, category := "General",
                       dietary_info := [], allergens := [], image_url := none }]
      service_time := none, special_notes := none }
    (by decide)

/-- C9: `check_menu_availability` acquires a token before the POST; when
token acquisition fails, the whole operation returns a failure value
carrying the same auth error message and the availability POST is never
performed (flag `false`); the POST is performed only under a
successfully acquired token. -/
theorem availability_auth_short_circuit (legs : List FlightLeg)
    (e : String) (post : AvailHttpOutcome) (response_time_ms : Nat) :
    check_menu_availability legs (.error e) post response_time_ms
      = ({ flight_legs := [], success := false, error_message := some e,
           api_response_time_ms := none }, false)
    ∧ ∀ tok : String,
        (check_menu_availability legs (.ok tok) post response_time_ms).2 = true := by
  refine ⟨rfl, fun tok => ?_⟩
  cases post with
  | ok status payload =>
      by_cases h : status = 200 <;> simp [check_menu_availability, h]
  | timeout => rfl
  | exn msg => rfl

/-- C1: when a cached token satisfies `now + 60 < expiresAt` the cached
access token is returned with zero upstream exchanges (no network I/O);
a cold call performs exactly one exchange and caches
`expiresAt = now + expires_in`; a second call within the validity window
performs zero further exchanges and returns the same token; a call
issued after `expiresAt - 60` performs exactly one more exchange. -/
theorem getAccessToken_caching (t : OAuthToken) (now : Int)
    (env env' env'' : TokenEndpointOutcome)
    (a tok_type : String) (ei t0 t1 t2 : Int)
    (hhit : now + 60 < t.expires_at)
    (hwin : t1 + 60 < t0 + ei)
    (hexp : t0 + ei - 60 < t2) :
    get_access_token (some t) now env = (.ok t.access_token, some t, 0)
    ∧ get_access_token none t0 (.ok a tok_type ei)
        = (.ok a, some { access_token := a, token_type := tok_type,
                         expires_in := ei, expires_at := t0 + ei }, 1)
    ∧ get_access_token
        (some { access_token := a, token_type := tok_type,
                expires_in := ei, expires_at := t0 + ei }) t1 env'
        = (.ok a, some { access_token := a, token_type := tok_type,
                         expires_in := ei, expires_at := t0 + ei }, 0)
    ∧ (get_access_token
        (some { access_token := a, token_type := tok_type,
                expires_in := ei, expires_at := t0 + ei }) t2 env'').2.2 = 1 := by
  have hmiss : ¬ (t2 + 60 < t0 + ei) := by omega
  refine ⟨by simp [get_access_token, hhit], rfl,
          by simp [get_access_token, hwin], ?_⟩
  cases env'' <;> simp [get_access_token, hmiss, refresh_token]

/-- Witness for C1 at concrete times and token fields. -/
theorem getAccessToken_caching_witness :
    get_access_token
        (some { access_token := "tok", token_type := "Bearer",
                expires_in := 3600, expires_at := 4000 }) 100 .timeout
      = (.ok "tok",
         some { access_token := "tok", token_type := "Bearer",
                expires_in := 3600, expires_at := 4000 }, 0)
    ∧ get_access_token none 0 (.ok "fresh" "Bearer" 3600)
        = (.ok "fresh", some { access_token := "fresh", token_type := "Bearer",
                               expires_in := 3600, expires_at := 3600 }, 1)
    ∧ get_access_token
        (some { access_token := "fresh", token_type := "Bearer",
                expires_in := 3600, expires_at := 3600 }) 1000 .timeout
        = (.ok "fresh", some { access_token := "fresh", token_type := "Bearer",
                               expires_in := 3600, expires_at := 3600 }, 0)
    ∧ (get_access_token
        (some { access_token := "fresh", token_type := "Bearer",
                expires_in := 3600, expires_at := 3600 }) 3590 .timeout).2.2 = 1 :=
  getAccessToken_caching
    { access_token := "tok", token_type := "Bearer",
      expires_in := 3600, expires_at := 4000 }
    100 .timeout .timeout .timeout "fresh" "Bearer" 3600 0 1000 3590
    (by decide) (by decide) (by decide)

/-- C2 counterexample: a non-2xx response's body is not carried — two
responses with the same 404 status but different bodies produce the very
same result value, whose message is the synthesized
`API returned status code 404`. -/
theorem nonOk_body_not_carried :
    get_menu_by_flight sampleRequest (.ok 404 { flightMenus := none, error := none } "upstream body A") 5
      = get_menu_by_flight sampleRequest (.ok 404 { flightMenus := none, error := none } "upstream body B") 5
    ∧ (get_menu_by_flight sampleRequest
        (.ok 404 { flightMenus := none, error := none } "upstream body A") 5).error_message
      = some "API returned status code 404"
    ∧ ("upstream body A" : String) ≠ "upstream body B" :=
  ⟨rfl, rfl, by decide⟩

/-- C2 amended: on a non-2xx status `get_menu_by_flight` returns (as a
value, never an exception) a `success=false` result whose message is the
synthesized `API returned status code N`; the upstream body is
discarded. -/
theorem nonOk_synthesized_message (request : MenuQueryRequest)
    (status : Nat) (payload : ApiPayload) (body : String)
    (response_time_ms : Nat) (h : status < 200 ∨ 300 ≤ status) :
    get_menu_by_flight request (.ok status payload body) response_time_ms
      = { carrier_code := request.operating_carrier
          flight_number := request.flight_number
          departure_date := request.departure_date
          departure_airport := request.departure_airport
          arrival_airport := none
          cabins := []
          success := false
          error_message := some ("API returned status code " ++ toString status)
          api_response_time_ms := some response_time_ms } := by
  have h200 : status ≠ 200 := by omega
  simp [get_menu_by_flight, h200]

/-- Witness for the amended C2 at a concrete 404. -/
theorem nonOk_synthesized_message_witness :
    get_menu_by_flight sampleRequest (.ok 404 cfyPayload "ignored") 5
      = { carrier_code := sampleRequest.operating_carrier
          flight_number := sampleRequest.flight_number
          departure_date := sampleRequest.departure_date
          departure_airport := sampleRequest.departure_airport
          arrival_airport := none
          cabins := []
          success := false
          error_message := some ("API returned status code " ++ toString 404)
          api_response_time_ms := some 5 } :=
  nonOk_synthesized_message sampleRequest 404 cfyPayload "ignored" 5 (Or.inr (by decide))

/-- The cabins of a normalized result depend only on the payload. -/
lemma parse_api_response_cabins (data : ApiPayload)
    (request request' : MenuQueryRequest) (rt rt' : Nat) :
    (parse_api_response data request rt).cabins
      = (parse_api_response data request' rt').cabins := by
  rcases hfm : data.flightMenus with _ | ⟨_ | ⟨fm, rest⟩⟩ <;>
    simp [parse_api_response, hfm]

/-- C4 counterexample: with menu services for cabins `[C, F, Y]` in the
payload, the result keeps all three cabins — not `[F, Y]` — whatever the
query: the client performs no cabin filtering (and `MenuQueryRequest`
carries no cabin-codes field at all). -/
theorem no_cabin_filter_counterexample :
    ((get_menu_by_flight sampleRequest (.ok 200 cfyPayload "") 0).cabins.map
        CabinMenu.cabin_code) = ["C", "F", "Y"]
    ∧ (["C", "F", "Y"] : List String) ≠ ["F", "Y"] :=
  ⟨rfl, by decide⟩

/-- C4 amended: no cabin filtering is applied as a post-processing step;
the cabin list of the result is independent of the query, and on a 200
response it is exactly the list of parseable menu services of the first
flight-menu entry, in original order. -/
theorem cabins_independent_of_query (request request' : MenuQueryRequest)
    (out : HttpOutcome) (response_time_ms : Nat) :
    (get_menu_by_flight request out response_time_ms).cabins
      = (get_menu_by_flight request' out response_time_ms).cabins
    ∧ ∀ (payload : ApiPayload) (fm : FlightMenuData) (rest : List FlightMenuData)
        (body : String),
        payload.flightMenus = some (fm :: rest) →
        (get_menu_by_flight request (.ok 200 payload body) response_time_ms).cabins
          = (fm.menuServices.getD []).filterMap parse_cabin_menu := by
  constructor
  · cases out with
    | ok status payload body =>
        by_cases h : status = 200
        · simp only [get_menu_by_flight, h, if_pos]
          exact parse_api_response_cabins payload request request' _ _
        · simp [get_menu_by_flight, h]
    | timeout => rfl
    | exn msg => rfl
  · intro payload fm rest body hfm
    simp [get_menu_by_flight, parse_api_response, hfm]

/-- Witness for the amended C4: two different queries yield the same
cabin list, and on the `[C, F, Y]` payload all services are kept. -/
theorem cabins_independent_of_query_witness :
    (get_menu_by_flight sampleRequest (.ok 200 cfyPayload "") 0).cabins
      = (get_menu_by_flight
          { departure_date := "2025-01-01", flight_number := 1,
            departure_airport := "JFK", operating_carrier := "DL",
            lang_cd := "en-US" } (.ok 200 cfyPayload "") 0).cabins
    ∧ (get_menu_by_flight sampleRequest (.ok 200 cfyPayload "") 0).cabins
        = ([sampleService "C", sampleService "F", sampleService "Y"].filterMap
            parse_cabin_menu) :=
  ⟨(cabins_independent_of_query sampleRequest
      { departure_date := "2025-01-01", flight_number := 1,
        departure_airport := "JFK", operating_carrier := "DL",
        lang_cd := "en-US" } (.ok 200 cfyPayload "") 0).1,
   (cabins_independent_of_query sampleRequest sampleRequest
      (.ok 200 cfyPayload "") 0).2 cfyPayload
      { flightArrivalAirportCode := none
        menuServices := some [sampleService "C", sampleService "F", sampleService "Y"] }
      [] "" rfl⟩

/-- A synthesized non-200 message never equals the timeout message. -/
lemma status_message_ne_timeout (s : String) :
    ("API returned status code " ++ s) ≠ "Request timed out" := by
  intro h
  have hl := congrArg String.length h
  simp [String.length_append] at hl
  have h1 : "API returned status code ".length = 25 := rfl
  have h2 : "Request timed out".length = 17 := rfl
  omega

/-- A synthesized availability non-200 message never equals the
availability timeout message. -/
lemma avail_status_message_ne_timeout (s : String) :
    ("Availability API returned status code " ++ s)
      ≠ "Availability request timed out" := by
  intro h
  have hl := congrArg String.length h
  simp [String.length_append] at hl
  have h1 : "Availability API returned status code ".length = 38 := rfl
  have h2 : "Availability request timed out".length = 30 := rfl
  omega

/-- C6: on both the menu-by-flight call and the availability call an
upstream timeout yields the dedicated timeout failure value
(`Request timed out` / `Availability request timed out`, each with
`api_response_time_ms = 30000`) — the call returns instead of hanging —
and on each call this value is distinct from every result of the
respective non-2xx (`ApiError`) branch and from every result of the
respective generic transport-exception branch. -/
theorem timeout_result_distinct (request : MenuQueryRequest)
    (rt rt' : Nat) (status : Nat) (payload : ApiPayload)
    (body msg : String) (legs : List FlightLeg) (tok : String)
    (art art' : Nat) (astatus : Nat) (apayload : AvailPayload)
    (amsg : String)
    (h : status < 200 ∨ 300 ≤ status)
    (ha : astatus < 200 ∨ 300 ≤ astatus) :
    (get_menu_by_flight request .timeout rt).success = false
    ∧ (get_menu_by_flight request .timeout rt).error_message = some "Request timed out"
    ∧ (get_menu_by_flight request .timeout rt).api_response_time_ms = some 30000
    ∧ get_menu_by_flight request (.ok status payload body) rt'
        ≠ get_menu_by_flight request .timeout rt
    ∧ get_menu_by_flight request (.exn msg) rt'
        ≠ get_menu_by_flight request .timeout rt
    ∧ (check_menu_availability legs (.ok tok) .timeout art).1.success = false
    ∧ (check_menu_availability legs (.ok tok) .timeout art).1.error_message
        = some "Availability request timed out"
    ∧ (check_menu_availability legs (.ok tok) .timeout art).1.api_response_time_ms
        = some 30000
    ∧ (check_menu_availability legs (.ok tok) (.ok astatus apayload) art').1
        ≠ (check_menu_availability legs (.ok tok) .timeout art).1
    ∧ (check_menu_availability legs (.ok tok) (.exn amsg) art').1
        ≠ (check_menu_availability legs (.ok tok) .timeout art).1 := by
  have h200 : status ≠ 200 := by omega
  have ha200 : astatus ≠ 200 := by omega
  refine ⟨rfl, rfl, rfl, ?_, ?_, rfl, rfl, rfl, ?_, ?_⟩
  · intro heq
    have hmsg := congrArg FlightMenuResult.error_message heq
    simp [get_menu_by_flight, h200] at hmsg
    exact status_message_ne_timeout (toString status) hmsg
  · intro heq
    have hms := congrArg FlightMenuResult.api_response_time_ms heq
    simp [get_menu_by_flight] at hms
  · intro heq
    have hmsg := congrArg MenuAvailabilityResult.error_message heq
    simp [check_menu_availability, ha200] at hmsg
    exact avail_status_message_ne_timeout (toString astatus) hmsg
  · intro heq
    have hms := congrArg MenuAvailabilityResult.api_response_time_ms heq
    simp [check_menu_availability] at hms

/-- Witness for C6 at concrete 503 statuses and exception messages on
both calls. -/
theorem timeout_result_distinct_witness :
    (get_menu_by_flight sampleRequest .timeout 9).success = false
    ∧ (get_menu_by_flight sampleRequest .timeout 9).error_message = some "Request timed out"
    ∧ (get_menu_by_flight sampleRequest .timeout 9).api_response_time_ms = some 30000
    ∧ get_menu_by_flight sampleRequest (.ok 503 cfyPayload "oops") 9
        ≠ get_menu_by_flight sampleRequest .timeout 9
    ∧ get_menu_by_flight sampleRequest (.exn "connection reset") 9
        ≠ get_menu_by_flight sampleRequest .timeout 9
    ∧ (check_menu_availability [] (.ok "tok") .timeout 9).1.success = false
    ∧ (check_menu_availability [] (.ok "tok") .timeout 9).1.error_message
        = some "Availability request timed out"
    ∧ (check_menu_availability [] (.ok "tok") .timeout 9).1.api_response_time_ms
        = some 30000
    ∧ (check_menu_availability [] (.ok "tok") (.ok 503 { flightLegs := none }) 9).1
        ≠ (check_menu_availability [] (.ok "tok") .timeout 9).1
    ∧ (check_menu_availability [] (.ok "tok") (.exn "connection reset") 9).1
        ≠ (check_menu_availability [] (.ok "tok") .timeout 9).1 :=
  timeout_result_distinct sampleRequest 9 9 503 cfyPayload "oops" "connection reset"
    [] "tok" 9 9 503 { flightLegs := none } "connection reset"
    (Or.inr (by decide)) (Or.inr (by decide))

/-- C7: `validate` is a pure total function — it always returns a
`ValidationResult`, with `is_valid` holding exactly when the issue list
is empty — and on every valid query (date between today and today + 365,
flight number at most 9999, 3-letter alphabetic airport, 2-letter
alphabetic carrier) it returns `is_valid = true` with empty issue and
recommendation lists. -/
theorem validate_pure_and_valid (query : MenuQuery) (today : Int)
    (h1 : today ≤ query.departure_date)
    (h2 : query.departure_date ≤ today + 365)
    (h3 : query.flight_number ≤ 9999)
    (h4 : query.departure_airport.length = 3)
    (h4b : query.departure_airport.toList.all Char.isAlpha = true)
    (h5 : query.operating_carrier.length = 2)
    (h5b : query.operating_carrier.toList.all Char.isAlpha = true) :
    (validate query today).is_valid = true
    ∧ (validate query today).issues = []
    ∧ (validate query today).recommendations = []
    ∧ ∀ (q : MenuQuery) (d : Int),
        (validate q d).is_valid = (validate q d).issues.isEmpty := by
  have d1 : ¬ (query.departure_date < today) := by omega
  have d2 : ¬ (query.departure_date > today + 365) := by omega
  have d3 : ¬ (query.flight_number > 9999) := by omega
  have ha : ∀ x ∈ query.departure_airport.data, x.isAlpha = true :=
    fun x hx => List.all_eq_true.mp h4b x hx
  have hc : ∀ x ∈ query.operating_carrier.data, x.isAlpha = true :=
    fun x hx => List.all_eq_true.mp h5b x hx
  refine ⟨?_, ?_, ?_, fun q d => rfl⟩ <;>
  · simp [validate, validation_checks, d1, d2, d3, h4, h5]
    exact ⟨ha, hc⟩

/-- Witness for C7 at a concrete valid query. -/
theorem validate_pure_and_valid_witness :
    (validate { departure_date := 10, flight_number := 100,
                departure_airport := "ATL", operating_carrier := "DL" } 0).is_valid = true
    ∧ (validate { departure_date := 10, flight_number := 100,
                  departure_airport := "ATL", operating_carrier := "DL" } 0).issues = []
    ∧ (validate { departure_date := 10, flight_number := 100,
                  departure_airport := "ATL", operating_carrier := "DL" } 0).recommendations = []
    ∧ ∀ (q : MenuQuery) (d : Int),
        (validate q d).is_valid = (validate q d).issues.isEmpty :=
  validate_pure_and_valid
    { departure_date := 10, flight_number := 100,
      departure_airport := "ATL", operating_carrier := "DL" } 0
    (by decide) (by decide) (by decide) (by decide) (by decide) (by decide) (by decide)

/-- Updating one task's phase exchanges its weight in the pending
count. -/
lemma pending_count_set (l : List TaskPhase) (i : Nat) (a b : TaskPhase)
    (h : l[i]? = some a) :
    pending_count (l.set i b) + (if a.pending then 1 else 0)
      = pending_count l + (if b.pending then 1 else 0) := by
  induction l generalizing i with
  | nil => simp at h
  | cons x xs ih =>
      cases i with
      | zero =>
          simp only [List.getElem?_cons_zero, Option.some.injEq] at h
          cases h
          simp only [List.set, pending_count]
          omega
      | succ n =>
          simp only [List.getElem?_cons_succ] at h
          have := ih n h
          simp only [List.set, pending_count]
          omega

/-- One atomic segment never increases the sum of performed exchanges
and still-pending calls: a task exchanges at most once. -/
lemma step_task_potential (now : Int) (env : TokenEndpointOutcome)
    (s : SharedState) (ph : TaskPhase) :
    (step_task now env s ph).1.exchanges
        + (if (step_task now env s ph).2.pending then 1 else 0)
      ≤ s.exchanges + (if ph.pending then 1 else 0) := by
  cases ph with
  | start =>
      cases htok : s.token with
      | some t =>
          by_cases hv : now + 60 < t.expires_at <;>
            simp [step_task, htok, hv, TaskPhase.pending]
      | none => simp [step_task, htok, TaskPhase.pending]
  | awaitingPost =>
      cases hr : refresh_token now env <;>
        simp [step_task, hr, TaskPhase.pending]
  | done r => simp [step_task, TaskPhase.pending]

/-- Along any schedule, exchanges plus pending calls never increase. -/
lemma run_schedule_potential (now : Int) (env : TokenEndpointOutcome)
    (sched : List Nat) (s : SharedState) (tasks : List TaskPhase) :
    (run_schedule now env sched (s, tasks)).1.exchanges
        + pending_count (run_schedule now env sched (s, tasks)).2
      ≤ s.exchanges + pending_count tasks := by
  induction sched generalizing s tasks with
  | nil => simp [run_schedule]
  | cons i rest ih =>
      cases hg : tasks[i]? with
      | none => simpa [run_schedule, hg] using ih s tasks
      | some ph =>
          have hrun : run_schedule now env (i :: rest) (s, tasks)
              = run_schedule now env rest
                  ((step_task now env s ph).1,
                   tasks.set i (step_task now env s ph).2) := by
            simp [run_schedule, hg]
          rw [hrun]
          have hstep := step_task_potential now env s ph
          have hset := pending_count_set tasks i ph (step_task now env s ph).2 hg
          have hrec := ih (step_task now env s ph).1
            (tasks.set i (step_task now env s ph).2)
          omega

/-- Every start phase is pending, so `n` fresh calls have weight `n`. -/
lemma pending_count_replicate_start (n : Nat) :
    pending_count (List.replicate n .start) = n := by
  induction n with
  | zero => rfl
  | succ m ih =>
      have hs : TaskPhase.pending .start = true := rfl
      simp only [List.replicate, pending_count, hs, if_true, ih]
      omega

/-- C8 counterexample: two concurrent `get_access_token` calls at an
empty cache, interleaved so that both check the cache before either
refresh completes (schedule 0,1,0,1), perform two upstream credential
exchanges — not exactly one. -/
theorem concurrent_refresh_two_exchanges :
    (run_schedule 0 (.ok "tok" "Bearer" 3600) [0, 1, 0, 1]
        ({ token := none, exchanges := 0 }, [.start, .start])).1.exchanges = 2
    ∧ (2 : Nat) ≠ 1 :=
  ⟨rfl, by decide⟩

/-- C8 amended: the refresh path has no single-flight guard, so `n`
concurrent calls may perform up to `n` upstream exchanges — one per call
that observed an invalid cache — never more; when one call's refresh
completes before the next call checks the cache (schedule 0,0,1,1), a
single exchange serves both. -/
theorem concurrent_refresh_bounded (now : Int) (env : TokenEndpointOutcome)
    (sched : List Nat) (n : Nat) :
    (run_schedule now env sched
        ({ token := none, exchanges := 0 }, List.replicate n .start)).1.exchanges ≤ n
    ∧ (run_schedule 0 (.ok "tok" "Bearer" 3600) [0, 0, 1, 1]
        ({ token := none, exchanges := 0 }, [.start, .start])).1.exchanges = 1 := by
  constructor
  · have hpot := run_schedule_potential now env sched
      { token := none, exchanges := 0 } (List.replicate n .start)
    have hpc := pending_count_replicate_start n
    have hz : ({ token := none, exchanges := 0 } : SharedState).exchanges = 0 := rfl
    omega
  · rfl
